import Mathlib

/-!
# linux-driver-management: the `status` command (`src/cli/status.c`)

A shallow embedding of the four functions of `src/cli/status.c`
(`print_drivers`, `print_device`, `print_gpu_config`, `ldm_cli_status`) and the
properties of its report that the specification states.

Every `fprintf`/`fputs` call of the source becomes one `Event.stdout` or
`Event.stderr` entry of an event trace, and every call into the LDM library
that the claims speak about becomes one `Event.call` entry, so that the order
of the steps and the arguments of the calls can be read off the trace.

The LDM library itself (`ldm.h`) is not part of the sources under study.  The
operations whose result depends on the machine (manager creation, plugin
loading, classification, provider resolution) are parameters, collected in
`LdmLib`.  The record accessors and type queries are modelled from the
specification; each such definition says so in its doc comment.
-/

namespace Ldm

/-! ## Data model -/

/-- Modelled from the spec: the type tags of a device (`LdmDeviceType` of the
absent `ldm.h`).  The specification names the "display adapter" tag; all other
tags are kept apart by a number. -/
inductive LdmDeviceType where
  | GPU
  | OTHER (tag : Nat)
  deriving DecidableEq, Repr

/-- Modelled from the spec: the boolean attributes of a device
(`LdmDeviceAttribute` of the absent `ldm.h`).  The specification names the
"is boot display device" attribute. -/
inductive LdmDeviceAttribute where
  | BOOT_VGA
  | OTHER (tag : Nat)
  deriving DecidableEq, Repr

/-- Modelled from the spec: the `Device` record of section 3, restricted to the
fields `status.c` reads: name, vendor string, product and vendor identifier, the
set of type tags and the set of attributes. -/
structure LdmDevice where
  name : String
  vendor : String
  product_id : Nat
  vendor_id : Nat
  types : List LdmDeviceType
  attributes : List LdmDeviceAttribute
  deriving DecidableEq, Repr

/-- Modelled from the spec: the `Provider` result type of section 3, restricted
to the package name, the only field `status.c` reads. -/
structure LdmProvider where
  package : String
  deriving DecidableEq, Repr

/-- Modelled from the spec: the topology category of section 3, "one of
Simple, Hybrid, Optimus, Crossfire, SLI, Composite" (`LdmGPUType` of the absent
`ldm.h`). -/
inductive LdmGPUType where
  | SIMPLE
  | HYBRID
  | OPTIMUS
  | CROSSFIRE
  | SLI
  | COMPOSITE
  deriving DecidableEq, Repr

/-- Modelled from the spec: the `GPUConfig` result type of section 3: a
category, the primary device and the optional secondary device.  The detection
device is not a field of its own: see `ldm_gpu_config_get_detection_device`. -/
structure LdmGPUConfig where
  gpu_type : LdmGPUType
  primary : LdmDevice
  secondary : Option LdmDevice
  deriving DecidableEq, Repr

/-- Modelled from the spec: the flags of `create(flags)`, which "select whether
a hotplug listener is started" (`LdmManagerFlags` of the absent `ldm.h`). -/
inductive LdmManagerFlags where
  | NONE
  | NO_MONITOR
  deriving DecidableEq, Repr

/-! ## Accessors of the absent LDM library -/

/-- Modelled from the spec: `ldm_device_get_name`, the device's name. -/
def ldm_device_get_name (device : LdmDevice) : String := device.name

/-- Modelled from the spec: `ldm_device_get_vendor`, the device's vendor
string. -/
def ldm_device_get_vendor (device : LdmDevice) : String := device.vendor

/-- Modelled from the spec: `ldm_device_get_product_id`. -/
def ldm_device_get_product_id (device : LdmDevice) : Nat := device.product_id

/-- Modelled from the spec: `ldm_device_get_vendor_id`. -/
def ldm_device_get_vendor_id (device : LdmDevice) : Nat := device.vendor_id

/-- Modelled from the spec: `ldm_device_has_type`, membership of a tag in the
device's set of type tags. -/
def ldm_device_has_type (device : LdmDevice) (t : LdmDeviceType) : Bool :=
  decide (t ∈ device.types)

/-- Modelled from the spec: `ldm_device_has_attribute`, membership of an
attribute in the device's set of attributes. -/
def ldm_device_has_attribute (device : LdmDevice) (a : LdmDeviceAttribute) : Bool :=
  decide (a ∈ device.attributes)

/-- Modelled from the spec: `ldm_provider_get_package`, the package name of a
provider. -/
def ldm_provider_get_package (provider : LdmProvider) : String := provider.package

/-- Modelled from the spec: `ldm_gpu_config_get_primary_device`. -/
def ldm_gpu_config_get_primary_device (config : LdmGPUConfig) : LdmDevice :=
  config.primary

/-- Modelled from the spec: `ldm_gpu_config_get_secondary_device`; `none` is the
source's `NULL`. -/
def ldm_gpu_config_get_secondary_device (config : LdmGPUConfig) : Option LdmDevice :=
  config.secondary

/-- Modelled from the spec: `ldm_gpu_config_get_detection_device`, absent from
the sources.  Section 4.3, step 5: "detection device = primary, always", and the
invariant of section 3, "detection device ∈ {primary} always". -/
def ldm_gpu_config_get_detection_device (config : LdmGPUConfig) : LdmDevice :=
  config.primary

/-- Modelled from the spec: the bit mask that stands for each category in
`LdmGPUType`, whose declaration is absent from the sources.  Section 9 names the
source's has-type queries bit mask queries.  Simple is the empty mask, the case
left when no query answers.  Sections 1 and 4.3 and the glossary make Hybrid
the general integrated plus discrete pairing and Optimus one kind of it, so the
mask of Optimus holds the bit of Hybrid besides its own.  Composite, Crossfire
and SLI have one bit each. -/
def ldm_gpu_type_mask : LdmGPUType → Nat
  | LdmGPUType.SIMPLE => 0
  | LdmGPUType.HYBRID => 1
  | LdmGPUType.COMPOSITE => 2
  | LdmGPUType.OPTIMUS => 4 ||| 1
  | LdmGPUType.CROSSFIRE => 8
  | LdmGPUType.SLI => 16

/-- Modelled from the spec: `ldm_gpu_config_has_type`, absent from the sources.
Section 9: a bit mask has-type query; it answers when every bit of the mask
asked for is set in the mask of the configuration's category. -/
def ldm_gpu_config_has_type (config : LdmGPUConfig) (t : LdmGPUType) : Bool :=
  (ldm_gpu_type_mask config.gpu_type &&& ldm_gpu_type_mask t) == ldm_gpu_type_mask t

/-! ## The event trace -/

/-- The calls into the LDM library whose outcome depends on the machine. -/
inductive LibCall where
  | manager_new (flags : LdmManagerFlags)
  | add_modalias_plugins_for_directory (dir : String)
  | gpu_config_new
  | get_providers (device : LdmDevice)
  deriving DecidableEq, Repr

/-- One observable step of the command: a write to `stdout`, a write to
`stderr`, or a call into the library. -/
inductive Event where
  | stdout (text : String)
  | stderr (text : String)
  | call (c : LibCall)
  deriving DecidableEq, Repr

/-- The texts written to `stdout`, in order. -/
def stdout_of (trace : List Event) : List String :=
  trace.filterMap fun e => match e with
    | Event.stdout s => some s
    | _ => none

/-- The texts written to `stderr`, in order. -/
def stderr_of (trace : List Event) : List String :=
  trace.filterMap fun e => match e with
    | Event.stderr s => some s
    | _ => none

/-- The library calls made, in order. -/
def calls_of (trace : List Event) : List LibCall :=
  trace.filterMap fun e => match e with
    | Event.call c => some c
    | _ => none

/-- The machine-dependent operations of the LDM library, over a manager handle
of type `M`.  `ldm_manager_new` and `ldm_gpu_config_new` return `none` for the
source's `NULL`; plugin loading returns its success flag and the manager after
loading.  What the library itself may log is outside `status.c` and is not part
of the trace. -/
structure LdmLib (M : Type) where
  ldm_manager_new : LdmManagerFlags → Option M
  ldm_manager_add_modalias_plugins_for_directory : M → String → Bool × M
  ldm_gpu_config_new : M → Option LdmGPUConfig
  ldm_manager_get_providers : M → LdmDevice → List LdmProvider

/-! ## `printf` conversions -/

/-- One lowercase hexadecimal digit, as `%x` writes it. -/
def hexDigit (d : Nat) : Char :=
  if d < 10 then Char.ofNat (48 + d) else Char.ofNat (87 + d)

/-- The hexadecimal digits of `n`, most significant first, in front of `acc`.
The fuel is the largest number of digits left to produce. -/
def hexDigitsAux : Nat → Nat → List Char → List Char
  | 0, _, acc => acc
  | fuel + 1, n, acc =>
    if n < 16 then hexDigit n :: acc
    else hexDigitsAux fuel (n / 16) (hexDigit (n % 16) :: acc)

/-- The `%x` conversion of an `unsigned int`: at most eight digits. -/
def hexDigits (n : Nat) : List Char := hexDigitsAux 8 (n % 4294967296) []

/-- Padding on the left up to a minimum field width. -/
def padLeft (width : Nat) (c : Char) (ds : List Char) : List Char :=
  List.replicate (width - ds.length) c ++ ds

/-- The `%04x` conversion: lowercase hexadecimal, zero-padded to width 4. -/
def fmt_04x (v : Nat) : String := String.mk (padLeft 4 '0' (hexDigits v))

/-- The `%d` conversion applied to a `guint`: the 32-bit pattern read as a
signed `int`. -/
def fmt_d (v : Nat) : String :=
  let m := v % 4294967296
  if m < 2147483648 then Nat.repr m else "-" ++ Nat.repr (4294967296 - m)

/-! ## `status.c` -/

/-- Exit status `EXIT_SUCCESS` of `stdlib.h`. -/
def EXIT_SUCCESS : Int := 0

/-- Exit status `EXIT_FAILURE` of `stdlib.h`. -/
def EXIT_FAILURE : Int := 1

/-- The `for` loop of `print_drivers`: one line per provider, from index `i`
on; `fuel` bounds the number of iterations. -/
def print_drivers_loop (providers : List LdmProvider) : Nat → Nat → List Event
  | 0, _ => []
  | fuel + 1, i =>
    if i < providers.length then
      match providers.get? i with
      | some provider =>
        Event.stdout (" -  " ++ ldm_provider_get_package provider ++ "\n")
          :: print_drivers_loop providers fuel (i + 1)
      | none => []
    else []

/-- The function `print_drivers` of `status.c`. -/
def print_drivers {M : Type} (lib : LdmLib M) (manager : M) (device : LdmDevice) :
    List Event :=
  let providers := lib.ldm_manager_get_providers manager device
  Event.call (LibCall.get_providers device) ::
    (if providers.length < 1 then []
     else
      Event.stdout ("\nLDM Providers for " ++ ldm_device_get_name device ++ ": "
          ++ fmt_d providers.length ++ "\n")
        :: print_drivers_loop providers providers.length 0)

/-- The function `print_device` of `status.c`. -/
def print_device (device : LdmDevice) : List Event :=
  let gpu := ldm_device_has_type device LdmDeviceType.GPU
  [ Event.stdout (" ╞ Device Name   : " ++ ldm_device_get_name device ++ "\n"),
    Event.stdout (" ╞ Manufacturer  : " ++ ldm_device_get_vendor device ++ "\n"),
    Event.stdout (" ╞ Product ID    : 0x"
      ++ fmt_04x (ldm_device_get_product_id device) ++ "\n"),
    Event.stdout (" " ++ (if gpu then "╞" else "╘") ++ " Vendor ID     : 0x"
      ++ fmt_04x (ldm_device_get_vendor_id device) ++ "\n") ] ++
  (if !gpu then []
   else
    [ Event.stdout (" ╘ Boot VGA      : "
        ++ (if ldm_device_has_attribute device LdmDeviceAttribute.BOOT_VGA then "yes" else "no")
        ++ "\n") ])

/-- The function `print_gpu_config` of `status.c`. -/
def print_gpu_config {M : Type} (lib : LdmLib M) (manager : M) (config : LdmGPUConfig) :
    List Event :=
  let primary := ldm_gpu_config_get_primary_device config
  let secondary := ldm_gpu_config_get_secondary_device config
  [ Event.stdout
      (if ldm_gpu_config_has_type config LdmGPUType.OPTIMUS then "NVIDIA Optimus\n"
       else if ldm_gpu_config_has_type config LdmGPUType.HYBRID then "Hybrid Graphics\n"
       else if ldm_gpu_config_has_type config LdmGPUType.CROSSFIRE then "AMD Crossfire\n"
       else if ldm_gpu_config_has_type config LdmGPUType.SLI then "NVIDIA SLI\n"
       else if ldm_gpu_config_has_type config LdmGPUType.COMPOSITE then "Composite GPU\n"
       else "Simple GPU configuration\n"),
    Event.stdout "\n",
    Event.stdout (" ╒ Primary GPU"
      ++ (if ldm_gpu_config_has_type config LdmGPUType.HYBRID then " (iGPU)" else "")
      ++ "\n") ] ++
  print_device primary ++
  (match secondary with
   | none => []
   | some secondary =>
     Event.stdout (" ╒ Primary GPU"
        ++ (if ldm_gpu_config_has_type config LdmGPUType.HYBRID then " (dGPU)" else "")
        ++ "\n")
       :: print_device secondary) ++
  print_drivers lib manager (ldm_gpu_config_get_detection_device config)

/-- The function `ldm_cli_status` of `status.c`: the exit status and the event
trace.  `MODALIAS_DIR` is the constant of the absent `config.h`; `argc` and
`argv` are unused, as in the source. -/
def ldm_cli_status {M : Type} (lib : LdmLib M) (MODALIAS_DIR : String)
    (_argc : Int) (_argv : List String) : Int × List Event :=
  match lib.ldm_manager_new LdmManagerFlags.NO_MONITOR with
  | none =>
    (EXIT_FAILURE,
      [ Event.call (LibCall.manager_new LdmManagerFlags.NO_MONITOR),
        Event.stderr "Failed to initialiase LdmManager\n" ])
  | some manager =>
    match lib.ldm_manager_add_modalias_plugins_for_directory manager MODALIAS_DIR with
    | (false, _) =>
      (EXIT_FAILURE,
        [ Event.call (LibCall.manager_new LdmManagerFlags.NO_MONITOR),
          Event.call (LibCall.add_modalias_plugins_for_directory MODALIAS_DIR),
          Event.stderr ("Failed to add modalias plugins for " ++ MODALIAS_DIR ++ "\n") ])
    | (true, manager) =>
      match lib.ldm_gpu_config_new manager with
      | none =>
        (EXIT_FAILURE,
          [ Event.call (LibCall.manager_new LdmManagerFlags.NO_MONITOR),
            Event.call (LibCall.add_modalias_plugins_for_directory MODALIAS_DIR),
            Event.call LibCall.gpu_config_new,
            Event.stderr "Failed to obtain LdmGPUConfig\n" ])
      | some gpu_config =>
        (EXIT_SUCCESS,
          [ Event.call (LibCall.manager_new LdmManagerFlags.NO_MONITOR),
            Event.call (LibCall.add_modalias_plugins_for_directory MODALIAS_DIR),
            Event.call LibCall.gpu_config_new ]
          ++ print_gpu_config lib manager gpu_config)

/-! ## Sample inputs -/

/-- An integrated display adapter that is the boot display. -/
def sampleIntel : LdmDevice :=
  { name := "HD Graphics", vendor := "Intel Corporation", product_id := 70,
    vendor_id := 32902, types := [LdmDeviceType.GPU],
    attributes := [LdmDeviceAttribute.BOOT_VGA] }

/-- A discrete display adapter that is not the boot display. -/
def sampleNvidia : LdmDevice :=
  { name := "GeForce", vendor := "NVIDIA Corporation", product_id := 4416,
    vendor_id := 4318, types := [LdmDeviceType.GPU], attributes := [] }

/-- A single adapter: the Simple configuration, without a secondary device. -/
def sampleSimple : LdmGPUConfig :=
  { gpu_type := LdmGPUType.SIMPLE, primary := sampleIntel, secondary := none }

/-- Two discrete adapters of one vendor. -/
def sampleCrossfire : LdmGPUConfig :=
  { gpu_type := LdmGPUType.CROSSFIRE,
    primary :=
      { name := "Radeon A", vendor := "AMD", product_id := 26591, vendor_id := 4098,
        types := [LdmDeviceType.GPU], attributes := [LdmDeviceAttribute.BOOT_VGA] },
    secondary := some
      { name := "Radeon B", vendor := "AMD", product_id := 26591, vendor_id := 4098,
        types := [LdmDeviceType.GPU], attributes := [] } }

/-- An integrated boot adapter with a discrete adapter of vendor "A". -/
def sampleOptimus : LdmGPUConfig :=
  { gpu_type := LdmGPUType.OPTIMUS, primary := sampleIntel, secondary := some sampleNvidia }

/-- A library whose manager is the list of rules, each a vendor identifier with
a package name; every step succeeds and classification yields `config`. -/
def sampleLib (config : LdmGPUConfig) : LdmLib (List (Nat × String)) :=
  { ldm_manager_new := fun _ => some []
    ldm_manager_add_modalias_plugins_for_directory := fun _ _ =>
      (true, [(4318, "nvidia-glx-driver"), (4318, "nvidia-340-glx-driver")])
    ldm_gpu_config_new := fun _ => some config
    ldm_manager_get_providers := fun rules device =>
      (rules.filter fun r => r.1 == device.vendor_id).map fun r => { package := r.2 } }

/-! ## Reading the report back -/

/-- A lowercase hexadecimal digit: `0`..`9` or `a`..`f`. -/
def isLowerHexDigit (c : Char) : Bool :=
  (48 ≤ c.toNat && c.toNat ≤ 57) || (97 ≤ c.toNat && c.toNat ≤ 102)

/-- The value of one lowercase hexadecimal digit. -/
def hexValue (c : Char) : Option Nat :=
  if 48 ≤ c.toNat ∧ c.toNat ≤ 57 then some (c.toNat - 48)
  else if 97 ≤ c.toNat ∧ c.toNat ≤ 102 then some (c.toNat - 87)
  else none

/-- Reading a string of lowercase hexadecimal digits, most significant first. -/
def parseHex (cs : List Char) : Option Nat :=
  cs.foldl
    (fun acc c =>
      match acc, hexValue c with
      | some a, some v => some (16 * a + v)
      | _, _ => none)
    (some 0)

/-- The label of each topology category, as the report is specified to show
it. -/
def category_label : LdmGPUType → String
  | LdmGPUType.OPTIMUS => "NVIDIA Optimus"
  | LdmGPUType.HYBRID => "Hybrid Graphics"
  | LdmGPUType.CROSSFIRE => "AMD Crossfire"
  | LdmGPUType.SLI => "NVIDIA SLI"
  | LdmGPUType.COMPOSITE => "Composite GPU"
  | LdmGPUType.SIMPLE => "Simple GPU configuration"

/-- The header line above the primary device's block: the third write of
`print_gpu_config`. -/
def header_of_primary_block (out : List String) : Option String := out.get? 2

/-- The header line above the secondary device's block: the write that follows
the primary device's block. -/
def header_of_secondary_block (primary : LdmDevice) (out : List String) : Option String :=
  out.get? (3 + (print_device primary).length)

/-- A header line carries the suffix `sfx` when it ends with `sfx` and the
newline. -/
def marked (sfx : String) (line : Option String) : Bool :=
  match line with
  | some l => (sfx ++ "\n").data.isSuffixOf l.data
  | none => false

/-- The text of the line `print_drivers` writes for one provider. -/
def provider_line (provider : LdmProvider) : String :=
  " -  " ++ ldm_provider_get_package provider ++ "\n"

/-- A line that begins with a blank or is led by a newline; no category label
does. -/
def starts_blank (s : String) : Prop :=
  s.data.head? = some ' ' ∨ s.data.head? = some '\n'

/-! ## Trace lemmas -/

@[simp]
theorem stdout_of_append (a b : List Event) :
    stdout_of (a ++ b) = stdout_of a ++ stdout_of b := by
  simp [stdout_of, List.filterMap_append]

@[simp]
theorem stderr_of_append (a b : List Event) :
    stderr_of (a ++ b) = stderr_of a ++ stderr_of b := by
  simp [stderr_of, List.filterMap_append]

@[simp]
theorem calls_of_append (a b : List Event) :
    calls_of (a ++ b) = calls_of a ++ calls_of b := by
  simp [calls_of, List.filterMap_append]

@[simp]
theorem stdout_of_nil : stdout_of [] = [] := rfl

@[simp]
theorem stderr_of_nil : stderr_of [] = [] := rfl

@[simp]
theorem calls_of_nil : calls_of [] = [] := rfl

@[simp]
theorem stdout_of_cons_stdout (s : String) (t : List Event) :
    stdout_of (Event.stdout s :: t) = s :: stdout_of t := by
  simp [stdout_of, List.filterMap_cons]

@[simp]
theorem stdout_of_cons_stderr (s : String) (t : List Event) :
    stdout_of (Event.stderr s :: t) = stdout_of t := by
  simp [stdout_of, List.filterMap_cons]

@[simp]
theorem stdout_of_cons_call (c : LibCall) (t : List Event) :
    stdout_of (Event.call c :: t) = stdout_of t := by
  simp [stdout_of, List.filterMap_cons]

@[simp]
theorem stderr_of_cons_stdout (s : String) (t : List Event) :
    stderr_of (Event.stdout s :: t) = stderr_of t := by
  simp [stderr_of, List.filterMap_cons]

@[simp]
theorem stderr_of_cons_stderr (s : String) (t : List Event) :
    stderr_of (Event.stderr s :: t) = s :: stderr_of t := by
  simp [stderr_of, List.filterMap_cons]

@[simp]
theorem stderr_of_cons_call (c : LibCall) (t : List Event) :
    stderr_of (Event.call c :: t) = stderr_of t := by
  simp [stderr_of, List.filterMap_cons]

@[simp]
theorem calls_of_cons_stdout (s : String) (t : List Event) :
    calls_of (Event.stdout s :: t) = calls_of t := by
  simp [calls_of, List.filterMap_cons]

@[simp]
theorem calls_of_cons_stderr (s : String) (t : List Event) :
    calls_of (Event.stderr s :: t) = calls_of t := by
  simp [calls_of, List.filterMap_cons]

@[simp]
theorem calls_of_cons_call (c : LibCall) (t : List Event) :
    calls_of (Event.call c :: t) = c :: calls_of t := by
  simp [calls_of, List.filterMap_cons]

/-- With fuel for every remaining index, the loop of `print_drivers` writes the
line of each provider from index `i` on, in the order of the list. -/
theorem print_drivers_loop_eq (providers : List LdmProvider) :
    ∀ (fuel i : Nat), i + fuel = providers.length →
      print_drivers_loop providers fuel i
        = (providers.drop i).map fun p => Event.stdout (provider_line p) := by
  intro fuel
  induction fuel with
  | zero =>
    intro i h
    have hi : providers.length ≤ i := by omega
    simp [print_drivers_loop, List.drop_eq_nil_of_le hi]
  | succ fuel ih =>
    intro i h
    have hi : i < providers.length := by omega
    have hget : providers.get? i = some (providers.get ⟨i, hi⟩) := List.get?_eq_get hi
    have hdrop : providers.drop i = providers.get ⟨i, hi⟩ :: providers.drop (i + 1) :=
      List.drop_eq_getElem_cons hi
    rw [hdrop, List.map_cons, print_drivers_loop, if_pos hi, hget]
    show Event.stdout (provider_line (providers.get ⟨i, hi⟩))
        :: print_drivers_loop providers fuel (i + 1) = _
    rw [ih (i + 1) (by omega)]

/-- The whole loop of `print_drivers`, started at index 0. -/
theorem print_drivers_loop_all (providers : List LdmProvider) :
    print_drivers_loop providers providers.length 0
      = providers.map fun p => Event.stdout (provider_line p) := by
  have h := print_drivers_loop_eq providers providers.length 0 (by omega)
  rw [h, List.drop_zero]

/-- The trace of `print_drivers`, in closed form. -/
theorem print_drivers_eq {M : Type} (lib : LdmLib M) (manager : M) (device : LdmDevice) :
    print_drivers lib manager device
      = Event.call (LibCall.get_providers device) ::
          (if lib.ldm_manager_get_providers manager device = [] then []
           else
            Event.stdout ("\nLDM Providers for " ++ ldm_device_get_name device ++ ": "
                ++ fmt_d (lib.ldm_manager_get_providers manager device).length ++ "\n")
              :: (lib.ldm_manager_get_providers manager device).map
                  fun p => Event.stdout (provider_line p)) := by
  unfold print_drivers
  simp only [print_drivers_loop_all]
  cases h : lib.ldm_manager_get_providers manager device with
  | nil => simp
  | cons p ps => simp

@[simp]
theorem calls_of_map_stdout {α : Type} (f : α → String) (l : List α) :
    calls_of (l.map fun a => Event.stdout (f a)) = [] := by
  induction l with
  | nil => rfl
  | cons a l ih => simpa using ih

@[simp]
theorem stdout_of_map_stdout {α : Type} (f : α → String) (l : List α) :
    stdout_of (l.map fun a => Event.stdout (f a)) = l.map f := by
  induction l with
  | nil => rfl
  | cons a l ih => simpa using ih

@[simp]
theorem stderr_of_map_stdout {α : Type} (f : α → String) (l : List α) :
    stderr_of (l.map fun a => Event.stdout (f a)) = [] := by
  induction l with
  | nil => rfl
  | cons a l ih => simpa using ih

/-- The only library call of `print_drivers` is the provider lookup for its
argument. -/
theorem calls_of_print_drivers {M : Type} (lib : LdmLib M) (manager : M)
    (device : LdmDevice) :
    calls_of (print_drivers lib manager device) = [LibCall.get_providers device] := by
  rw [print_drivers_eq]
  split <;> simp

/-- The function `print_device` calls nothing whose outcome depends on the
machine. -/
theorem calls_of_print_device (device : LdmDevice) : calls_of (print_device device) = [] := by
  unfold print_device
  cases ldm_device_has_type device LdmDeviceType.GPU <;> simp

/-- The library calls of `print_gpu_config`: one provider lookup, for the
detection device. -/
theorem print_gpu_config_calls {M : Type} (lib : LdmLib M) (manager : M)
    (config : LdmGPUConfig) :
    calls_of (print_gpu_config lib manager config)
      = [LibCall.get_providers (ldm_gpu_config_get_detection_device config)] := by
  unfold print_gpu_config
  cases ldm_gpu_config_get_secondary_device config <;>
    simp [calls_of_print_device, calls_of_print_drivers]

/-! ## C1: the provider lookup is keyed on the primary device -/

/-- C1: for every GPU configuration, whatever its category, the one provider
lookup that `print_gpu_config` makes has the configuration's primary device as
its argument, and the trace ends with `print_drivers` run on that device. -/
theorem print_gpu_config_detects_on_primary {M : Type} (lib : LdmLib M) (manager : M)
    (config : LdmGPUConfig) :
    calls_of (print_gpu_config lib manager config)
        = [LibCall.get_providers (ldm_gpu_config_get_primary_device config)]
      ∧ ∃ blocks : List Event,
          calls_of blocks = [] ∧
          print_gpu_config lib manager config
            = blocks ++ print_drivers lib manager (ldm_gpu_config_get_primary_device config) := by
  have hblocks : ∀ s : Option LdmDevice, ∀ t : String,
      calls_of (match s with
        | none => []
        | some secondary => Event.stdout t :: print_device secondary) = [] := by
    intro s t
    cases s <;> simp [calls_of_print_device]
  refine ⟨?_, ?_⟩
  · unfold print_gpu_config
    simp [calls_of_print_device, calls_of_print_drivers, hblocks,
      ldm_gpu_config_get_detection_device, ldm_gpu_config_get_primary_device]
  · refine ⟨_, ?_, rfl⟩
    simp [calls_of_print_device, hblocks]

/-! ## C2: the three steps of `ldm_cli_status` and its exit status -/

/-- C2: `ldm_cli_status` returns `EXIT_SUCCESS` exactly when manager creation,
plugin loading and GPU configuration all succeed; the three are called in that
order; and when one of them fails the exit status is `EXIT_FAILURE`, nothing is
written to `stdout`, exactly one message is written to `stderr`, and the calls
made stop at the failing step. -/
theorem ldm_cli_status_steps {M : Type} (lib : LdmLib M) (MODALIAS_DIR : String)
    (argc : Int) (argv : List String) :
    ((ldm_cli_status lib MODALIAS_DIR argc argv).1 = EXIT_SUCCESS ↔
        ∃ m m2 config,
          lib.ldm_manager_new LdmManagerFlags.NO_MONITOR = some m ∧
          lib.ldm_manager_add_modalias_plugins_for_directory m MODALIAS_DIR = (true, m2) ∧
          lib.ldm_gpu_config_new m2 = some config)
    ∧ ((ldm_cli_status lib MODALIAS_DIR argc argv).1 = EXIT_SUCCESS ∨
        ((ldm_cli_status lib MODALIAS_DIR argc argv).1 = EXIT_FAILURE ∧
          stdout_of (ldm_cli_status lib MODALIAS_DIR argc argv).2 = [] ∧
          (stderr_of (ldm_cli_status lib MODALIAS_DIR argc argv).2).length = 1))
    ∧ (lib.ldm_manager_new LdmManagerFlags.NO_MONITOR = none →
        ldm_cli_status lib MODALIAS_DIR argc argv
          = (EXIT_FAILURE,
              [ Event.call (LibCall.manager_new LdmManagerFlags.NO_MONITOR),
                Event.stderr "Failed to initialiase LdmManager\n" ]))
    ∧ (∀ m m2, lib.ldm_manager_new LdmManagerFlags.NO_MONITOR = some m →
        lib.ldm_manager_add_modalias_plugins_for_directory m MODALIAS_DIR = (false, m2) →
        ldm_cli_status lib MODALIAS_DIR argc argv
          = (EXIT_FAILURE,
              [ Event.call (LibCall.manager_new LdmManagerFlags.NO_MONITOR),
                Event.call (LibCall.add_modalias_plugins_for_directory MODALIAS_DIR),
                Event.stderr ("Failed to add modalias plugins for " ++ MODALIAS_DIR ++ "\n") ]))
    ∧ (∀ m m2, lib.ldm_manager_new LdmManagerFlags.NO_MONITOR = some m →
        lib.ldm_manager_add_modalias_plugins_for_directory m MODALIAS_DIR = (true, m2) →
        lib.ldm_gpu_config_new m2 = none →
        ldm_cli_status lib MODALIAS_DIR argc argv
          = (EXIT_FAILURE,
              [ Event.call (LibCall.manager_new LdmManagerFlags.NO_MONITOR),
                Event.call (LibCall.add_modalias_plugins_for_directory MODALIAS_DIR),
                Event.call LibCall.gpu_config_new,
                Event.stderr "Failed to obtain LdmGPUConfig\n" ]))
    ∧ (∀ m m2 config, lib.ldm_manager_new LdmManagerFlags.NO_MONITOR = some m →
        lib.ldm_manager_add_modalias_plugins_for_directory m MODALIAS_DIR = (true, m2) →
        lib.ldm_gpu_config_new m2 = some config →
        calls_of (ldm_cli_status lib MODALIAS_DIR argc argv).2
          = [ LibCall.manager_new LdmManagerFlags.NO_MONITOR,
              LibCall.add_modalias_plugins_for_directory MODALIAS_DIR,
              LibCall.gpu_config_new,
              LibCall.get_providers (ldm_gpu_config_get_detection_device config) ]) := by
  cases h1 : lib.ldm_manager_new LdmManagerFlags.NO_MONITOR with
  | none => simp [ldm_cli_status, h1, EXIT_SUCCESS, EXIT_FAILURE]
  | some m =>
    rcases h2 : lib.ldm_manager_add_modalias_plugins_for_directory m MODALIAS_DIR with ⟨b, m2⟩
    cases b with
    | false =>
      have hval : ldm_cli_status lib MODALIAS_DIR argc argv
          = (EXIT_FAILURE,
              [ Event.call (LibCall.manager_new LdmManagerFlags.NO_MONITOR),
                Event.call (LibCall.add_modalias_plugins_for_directory MODALIAS_DIR),
                Event.stderr ("Failed to add modalias plugins for " ++ MODALIAS_DIR ++ "\n") ]) := by
        simp only [ldm_cli_status, h1, h2]
      rw [hval]
      refine ⟨?_, ?_, ?_, ?_, ?_, ?_⟩
      · constructor
        · intro h
          simp [EXIT_SUCCESS, EXIT_FAILURE] at h
        · rintro ⟨a, b, c, ha, hb, -⟩
          simp_all
      · right
        simp
      · intro h
        simp at h
      · intro a b _ _
        rfl
      · intro a b ha hb
        simp_all
      · intro a b c ha hb
        simp_all
    | true =>
      cases h3 : lib.ldm_gpu_config_new m2 with
      | none =>
        have hval : ldm_cli_status lib MODALIAS_DIR argc argv
            = (EXIT_FAILURE,
                [ Event.call (LibCall.manager_new LdmManagerFlags.NO_MONITOR),
                  Event.call (LibCall.add_modalias_plugins_for_directory MODALIAS_DIR),
                  Event.call LibCall.gpu_config_new,
                  Event.stderr "Failed to obtain LdmGPUConfig\n" ]) := by
          simp only [ldm_cli_status, h1, h2, h3]
        rw [hval]
        refine ⟨?_, ?_, ?_, ?_, ?_, ?_⟩
        · constructor
          · intro h
            simp [EXIT_SUCCESS, EXIT_FAILURE] at h
          · rintro ⟨a, b, c, ha, hb, hc⟩
            simp_all
        · right
          simp
        · intro h
          simp at h
        · intro a b ha hb
          simp_all
        · intro a b _ _ _
          rfl
        · intro a b c ha hb hc
          simp_all
      | some config =>
        have hval : ldm_cli_status lib MODALIAS_DIR argc argv
            = (EXIT_SUCCESS,
                [ Event.call (LibCall.manager_new LdmManagerFlags.NO_MONITOR),
                  Event.call (LibCall.add_modalias_plugins_for_directory MODALIAS_DIR),
                  Event.call LibCall.gpu_config_new ]
                ++ print_gpu_config lib m2 config) := by
          simp only [ldm_cli_status, h1, h2, h3]
        rw [hval]
        refine ⟨?_, ?_, ?_, ?_, ?_, ?_⟩
        · constructor
          · intro _
            exact ⟨m, m2, config, rfl, h2, h3⟩
          · intro _
            rfl
        · left
          rfl
        · intro h
          simp at h
        · intro a b ha hb
          simp_all
        · intro a b ha hb hc
          simp_all
        · intro a b c ha hb hc
          have hab : b = m2 := by simp_all
          subst hab
          have hcc : c = config := by simp_all
          subst hcc
          simp [print_gpu_config_calls]

/-- Witness for C2: on a machine without a display adapter, where manager
creation and plugin loading succeed and classification fails, the command
stops after the classification call with one message on `stderr`. -/
theorem ldm_cli_status_steps_witness :
    ldm_cli_status
        ({ sampleLib sampleSimple with ldm_gpu_config_new := fun _ => none })
        "/usr/share/ldm/modaliases" 1 ["status"]
      = (EXIT_FAILURE,
          [ Event.call (LibCall.manager_new LdmManagerFlags.NO_MONITOR),
            Event.call (LibCall.add_modalias_plugins_for_directory "/usr/share/ldm/modaliases"),
            Event.call LibCall.gpu_config_new,
            Event.stderr "Failed to obtain LdmGPUConfig\n" ]) :=
  (ldm_cli_status_steps
      ({ sampleLib sampleSimple with ldm_gpu_config_new := fun _ => none })
      "/usr/share/ldm/modaliases" 1 ["status"]).2.2.2.2.1 [] _ rfl rfl rfl

/-! ## C4: the provider listing -/

/-- C4: for a non-empty provider list of length `n`, `print_drivers` writes one
header carrying the device name and the count, then exactly `n` lines, the
`i`-th being `" -  "` plus the package name of the `i`-th provider, in the
resolver's order.  The count is written by `%d`: it is `n` in decimal for every
`n` in the range of `int`. -/
theorem print_drivers_lists_every_provider {M : Type} (lib : LdmLib M) (manager : M)
    (device : LdmDevice)
    (h : lib.ldm_manager_get_providers manager device ≠ []) :
    stdout_of (print_drivers lib manager device)
        = ("\nLDM Providers for " ++ device.name ++ ": "
              ++ fmt_d (lib.ldm_manager_get_providers manager device).length ++ "\n")
            :: (lib.ldm_manager_get_providers manager device).map
                (fun p => " -  " ++ p.package ++ "\n")
      ∧ (stdout_of (print_drivers lib manager device)).length
          = 1 + (lib.ldm_manager_get_providers manager device).length
      ∧ ((lib.ldm_manager_get_providers manager device).length < 2147483648 →
          fmt_d (lib.ldm_manager_get_providers manager device).length
            = Nat.repr (lib.ldm_manager_get_providers manager device).length)
      ∧ stderr_of (print_drivers lib manager device) = [] := by
  have heq := print_drivers_eq lib manager device
  rw [if_neg h] at heq
  refine ⟨?_, ?_, ?_, ?_⟩
  · rw [heq]
    simp [provider_line, ldm_device_get_name, ldm_provider_get_package]
  · rw [heq]
    simp [Nat.add_comm]
  · intro hn
    have hmod : (lib.ldm_manager_get_providers manager device).length % 4294967296
        = (lib.ldm_manager_get_providers manager device).length :=
      Nat.mod_eq_of_lt (by omega)
    simp [fmt_d, hmod, hn]
  · rw [heq]
    simp

/-- Witness for C4: two rules match the discrete adapter. -/
theorem print_drivers_lists_every_provider_witness :
    stdout_of (print_drivers (sampleLib sampleSimple)
        [(4318, "nvidia-glx-driver"), (4318, "nvidia-340-glx-driver")] sampleNvidia)
      = [ "\nLDM Providers for GeForce: 2\n",
          " -  nvidia-glx-driver\n",
          " -  nvidia-340-glx-driver\n" ] :=
  (print_drivers_lists_every_provider (sampleLib sampleSimple)
      [(4318, "nvidia-glx-driver"), (4318, "nvidia-340-glx-driver")] sampleNvidia
      (by decide)).1

/-! ## C3: identifiers are written as four hexadecimal digits -/

/-- Every digit `hexDigit` produces is a lowercase hexadecimal digit with the
value it was made from. -/
theorem hexDigit_spec :
    ∀ d, d < 16 → isLowerHexDigit (hexDigit d) = true ∧ hexValue (hexDigit d) = some d := by
  decide

/-- A 16-bit value is written by `%04x` as its four hexadecimal digits. -/
theorem fmt_04x_of_16bit (v : Nat) (hv : v ≤ 65535) :
    fmt_04x v
      = String.mk [hexDigit (v / 4096), hexDigit (v / 256 % 16), hexDigit (v / 16 % 16),
          hexDigit (v % 16)] := by
  have hmod : v % 4294967296 = v := Nat.mod_eq_of_lt (by omega)
  have h0 : hexDigit 0 = '0' := by decide
  unfold fmt_04x hexDigits
  rw [hmod]
  congr 1
  by_cases h1 : v < 16
  · have e1 : v / 4096 = 0 := by omega
    have e2 : v / 256 % 16 = 0 := by omega
    have e3 : v / 16 % 16 = 0 := by omega
    have e4 : v % 16 = v := by omega
    simp [hexDigitsAux, h1, padLeft, e1, e2, e3, e4, h0, List.replicate]
  · by_cases h2 : v < 256
    · have e1 : v / 4096 = 0 := by omega
      have e2 : v / 256 % 16 = 0 := by omega
      have e3 : v / 16 % 16 = v / 16 := by omega
      have c2 : v / 16 < 16 := by omega
      simp [hexDigitsAux, h1, c2, padLeft, e1, e2, e3, h0, List.replicate]
    · by_cases h3 : v < 4096
      · have e1 : v / 4096 = 0 := by omega
        have e2 : v / 256 % 16 = v / 16 / 16 := by omega
        have c2 : ¬ v / 16 < 16 := by omega
        have c3 : v / 16 / 16 < 16 := by omega
        simp [hexDigitsAux, h1, c2, c3, padLeft, e1, e2, h0, List.replicate]
      · have e1 : v / 4096 = v / 16 / 16 / 16 := by omega
        have e2 : v / 256 % 16 = v / 16 / 16 % 16 := by omega
        have c2 : ¬ v / 16 < 16 := by omega
        have c3 : ¬ v / 16 / 16 < 16 := by omega
        have c4 : v / 16 / 16 / 16 < 16 := by omega
        simp [hexDigitsAux, h1, c2, c3, c4, padLeft, e1, e2]

/-- Reading the four digits of a 16-bit value back gives the value. -/
theorem parseHex_four_digits (v : Nat) (hv : v ≤ 65535) :
    parseHex [hexDigit (v / 4096), hexDigit (v / 256 % 16), hexDigit (v / 16 % 16),
        hexDigit (v % 16)] = some v := by
  have a := (hexDigit_spec (v / 4096) (by omega)).2
  have b := (hexDigit_spec (v / 256 % 16) (by omega)).2
  have c := (hexDigit_spec (v / 16 % 16) (by omega)).2
  have d := (hexDigit_spec (v % 16) (by omega)).2
  simp only [parseHex, List.foldl, a, b, c, d]
  congr 1
  omega

/-- C3: for a device whose product and vendor identifiers are 16-bit values,
`print_device` writes each as `0x` followed by exactly four lowercase
hexadecimal digits, and reading the four digits back as a hexadecimal number
gives the identifier. -/
theorem print_device_ids_four_hex_digits (device : LdmDevice)
    (hp : device.product_id ≤ 65535) (hv : device.vendor_id ≤ 65535) :
    ∃ ps vs : List Char,
      ps.length = 4 ∧ (∀ c ∈ ps, isLowerHexDigit c = true) ∧
      parseHex ps = some device.product_id ∧
      vs.length = 4 ∧ (∀ c ∈ vs, isLowerHexDigit c = true) ∧
      parseHex vs = some device.vendor_id ∧
      (stdout_of (print_device device)).get? 2
        = some (" ╞ Product ID    : " ++ "0x" ++ String.mk ps ++ "\n") ∧
      (stdout_of (print_device device)).get? 3
        = some (" " ++ (if LdmDeviceType.GPU ∈ device.types then "╞" else "╘")
            ++ " Vendor ID     : " ++ "0x" ++ String.mk vs ++ "\n") := by
  refine ⟨[hexDigit (device.product_id / 4096), hexDigit (device.product_id / 256 % 16),
      hexDigit (device.product_id / 16 % 16), hexDigit (device.product_id % 16)],
    [hexDigit (device.vendor_id / 4096), hexDigit (device.vendor_id / 256 % 16),
      hexDigit (device.vendor_id / 16 % 16), hexDigit (device.vendor_id % 16)],
    rfl, ?_, parseHex_four_digits _ hp, rfl, ?_, parseHex_four_digits _ hv, ?_, ?_⟩
  · intro c hc
    simp only [List.mem_cons, List.mem_singleton, List.not_mem_nil, or_false] at hc
    rcases hc with h | h | h | h <;> rw [h] <;> exact (hexDigit_spec _ (by omega)).1
  · intro c hc
    simp only [List.mem_cons, List.mem_singleton, List.not_mem_nil, or_false] at hc
    rcases hc with h | h | h | h <;> rw [h] <;> exact (hexDigit_spec _ (by omega)).1
  · rw [← fmt_04x_of_16bit _ hp]
    simp [print_device, ldm_device_get_product_id, String.append_assoc]
  · rw [← fmt_04x_of_16bit _ hv]
    by_cases hg : LdmDeviceType.GPU ∈ device.types <;>
      simp [print_device, ldm_device_get_vendor_id, ldm_device_has_type, hg,
        String.append_assoc]

/-- Witness for C3: the integrated adapter with product 0x0046 of vendor
0x8086. -/
theorem print_device_ids_four_hex_digits_witness :
    ∃ ps vs : List Char,
      ps.length = 4 ∧ (∀ c ∈ ps, isLowerHexDigit c = true) ∧
      parseHex ps = some 70 ∧
      vs.length = 4 ∧ (∀ c ∈ vs, isLowerHexDigit c = true) ∧
      parseHex vs = some 32902 ∧
      (stdout_of (print_device sampleIntel)).get? 2
        = some (" ╞ Product ID    : " ++ "0x" ++ String.mk ps ++ "\n") ∧
      (stdout_of (print_device sampleIntel)).get? 3
        = some (" " ++ (if LdmDeviceType.GPU ∈ sampleIntel.types then "╞" else "╘")
            ++ " Vendor ID     : " ++ "0x" ++ String.mk vs ++ "\n") :=
  print_device_ids_four_hex_digits sampleIntel (by decide) (by decide)

/-! ## C7: the device block -/

/-- C7: for a device tagged as a display adapter `print_device` writes exactly
five lines in the order name, manufacturer, product id, vendor id, boot-display
attribute, the last reading "yes" exactly when the device has the boot-display
attribute and "no" otherwise; for any other device it writes only the first
four lines. -/
theorem print_device_lines (device : LdmDevice) :
    (LdmDeviceType.GPU ∈ device.types →
        print_device device
          = [ Event.stdout (" ╞ Device Name   : " ++ device.name ++ "\n"),
              Event.stdout (" ╞ Manufacturer  : " ++ device.vendor ++ "\n"),
              Event.stdout (" ╞ Product ID    : 0x" ++ fmt_04x device.product_id ++ "\n"),
              Event.stdout (" ╞ Vendor ID     : 0x" ++ fmt_04x device.vendor_id ++ "\n"),
              Event.stdout
                (if LdmDeviceAttribute.BOOT_VGA ∈ device.attributes
                  then " ╘ Boot VGA      : yes\n" else " ╘ Boot VGA      : no\n") ]
        ∧ ((stdout_of (print_device device)).get? 4 = some " ╘ Boot VGA      : yes\n"
            ↔ LdmDeviceAttribute.BOOT_VGA ∈ device.attributes)
        ∧ ((stdout_of (print_device device)).get? 4 = some " ╘ Boot VGA      : no\n"
            ↔ LdmDeviceAttribute.BOOT_VGA ∉ device.attributes))
    ∧ (LdmDeviceType.GPU ∉ device.types →
        print_device device
          = [ Event.stdout (" ╞ Device Name   : " ++ device.name ++ "\n"),
              Event.stdout (" ╞ Manufacturer  : " ++ device.vendor ++ "\n"),
              Event.stdout (" ╞ Product ID    : 0x" ++ fmt_04x device.product_id ++ "\n"),
              Event.stdout (" ╘ Vendor ID     : 0x" ++ fmt_04x device.vendor_id ++ "\n") ]) := by
  have hyes : (" ╘ Boot VGA      : " ++ "yes" ++ "\n" : String) = " ╘ Boot VGA      : yes\n" := by
    decide
  have hno : (" ╘ Boot VGA      : " ++ "no" ++ "\n" : String) = " ╘ Boot VGA      : no\n" := by
    decide
  have hne : (" ╘ Boot VGA      : yes\n" : String) ≠ " ╘ Boot VGA      : no\n" := by decide
  have hl : (" " ++ "╞" : String) = " ╞" := by decide
  have hr : (" " ++ "╘" : String) = " ╘" := by decide
  constructor
  · intro hg
    by_cases ha : LdmDeviceAttribute.BOOT_VGA ∈ device.attributes
    · refine ⟨?_, ?_, ?_⟩
      · simp [print_device, ldm_device_has_type, ldm_device_has_attribute, hg, ha, hyes, hl,
          ldm_device_get_name, ldm_device_get_vendor, ldm_device_get_product_id,
          ldm_device_get_vendor_id]
      · simp [print_device, ldm_device_has_type, ldm_device_has_attribute, hg, ha, hyes]
      · simp [print_device, ldm_device_has_type, ldm_device_has_attribute, hg, ha, hyes, hne]
    · refine ⟨?_, ?_, ?_⟩
      · simp [print_device, ldm_device_has_type, ldm_device_has_attribute, hg, ha, hno, hl,
          ldm_device_get_name, ldm_device_get_vendor, ldm_device_get_product_id,
          ldm_device_get_vendor_id]
      · simp [print_device, ldm_device_has_type, ldm_device_has_attribute, hg, ha, hno,
          hne.symm]
      · simp [print_device, ldm_device_has_type, ldm_device_has_attribute, hg, ha, hno]
  · intro hg
    simp [print_device, ldm_device_has_type, hg, hr, ldm_device_get_name,
      ldm_device_get_vendor, ldm_device_get_product_id, ldm_device_get_vendor_id]

/-- Witness for C7: the block of the integrated boot adapter. -/
theorem print_device_lines_witness :
    print_device sampleIntel
      = [ Event.stdout " ╞ Device Name   : HD Graphics\n",
          Event.stdout " ╞ Manufacturer  : Intel Corporation\n",
          Event.stdout " ╞ Product ID    : 0x0046\n",
          Event.stdout " ╞ Vendor ID     : 0x8086\n",
          Event.stdout " ╘ Boot VGA      : yes\n" ] :=
  ((print_device_lines sampleIntel).1 (by decide)).1

/-! ## C5: an empty provider list is not an error -/

/-- C5: when the resolver returns no provider for the detection device,
`print_drivers` makes the lookup and writes nothing, neither header nor line,
and `ldm_cli_status`, the manager, the plugin load and the GPU configuration
having succeeded, returns `EXIT_SUCCESS` with nothing on `stderr`. -/
theorem empty_provider_list_is_no_error {M : Type} (lib : LdmLib M) (MODALIAS_DIR : String)
    (argc : Int) (argv : List String) (m m2 : M) (config : LdmGPUConfig)
    (h1 : lib.ldm_manager_new LdmManagerFlags.NO_MONITOR = some m)
    (h2 : lib.ldm_manager_add_modalias_plugins_for_directory m MODALIAS_DIR = (true, m2))
    (h3 : lib.ldm_gpu_config_new m2 = some config)
    (h4 : lib.ldm_manager_get_providers m2 (ldm_gpu_config_get_detection_device config) = []) :
    print_drivers lib m2 (ldm_gpu_config_get_detection_device config)
        = [Event.call (LibCall.get_providers (ldm_gpu_config_get_detection_device config))]
      ∧ stdout_of (print_drivers lib m2 (ldm_gpu_config_get_detection_device config)) = []
      ∧ stderr_of (print_drivers lib m2 (ldm_gpu_config_get_detection_device config)) = []
      ∧ (ldm_cli_status lib MODALIAS_DIR argc argv).1 = EXIT_SUCCESS
      ∧ stderr_of (ldm_cli_status lib MODALIAS_DIR argc argv).2 = [] := by
  have hd : print_drivers lib m2 (ldm_gpu_config_get_detection_device config)
      = [Event.call (LibCall.get_providers (ldm_gpu_config_get_detection_device config))] := by
    rw [print_drivers_eq, if_pos h4]
  have hdev : ∀ d, stderr_of (print_device d) = [] := by
    intro d
    unfold print_device
    cases ldm_device_has_type d LdmDeviceType.GPU <;> simp
  have hval : ldm_cli_status lib MODALIAS_DIR argc argv
      = (EXIT_SUCCESS,
          [ Event.call (LibCall.manager_new LdmManagerFlags.NO_MONITOR),
            Event.call (LibCall.add_modalias_plugins_for_directory MODALIAS_DIR),
            Event.call LibCall.gpu_config_new ]
          ++ print_gpu_config lib m2 config) := by
    simp only [ldm_cli_status, h1, h2, h3]
  refine ⟨hd, ?_, ?_, ?_, ?_⟩
  · rw [hd]
    simp
  · rw [hd]
    simp
  · rw [hval]
  · rw [hval]
    unfold print_gpu_config
    rw [hd]
    cases ldm_gpu_config_get_secondary_device config <;> simp [hdev]

/-- Witness for C5: no rule matches the integrated adapter of a Simple
configuration. -/
theorem empty_provider_list_is_no_error_witness :
    (ldm_cli_status (sampleLib sampleSimple) "/usr/share/ldm/modaliases" 1 ["status"]).1
        = EXIT_SUCCESS
      ∧ stdout_of (ldm_cli_status (sampleLib sampleSimple) "/usr/share/ldm/modaliases" 1
          ["status"]).2
        = [ "Simple GPU configuration\n", "\n", " ╒ Primary GPU\n",
            " ╞ Device Name   : HD Graphics\n",
            " ╞ Manufacturer  : Intel Corporation\n",
            " ╞ Product ID    : 0x0046\n",
            " ╞ Vendor ID     : 0x8086\n",
            " ╘ Boot VGA      : yes\n" ] :=
  ⟨(empty_provider_list_is_no_error (sampleLib sampleSimple) "/usr/share/ldm/modaliases" 1
      ["status"] [] [(4318, "nvidia-glx-driver"), (4318, "nvidia-340-glx-driver")]
      sampleSimple rfl rfl rfl (by decide)).2.2.2.1, by decide⟩

/-! ## The shape of the report of `print_gpu_config` -/

/-- The Hybrid query answers for the two integrated plus discrete pairings,
Hybrid and Optimus, and for no other category. -/
theorem has_type_hybrid (config : LdmGPUConfig) :
    ldm_gpu_config_has_type config LdmGPUType.HYBRID
      = decide (config.gpu_type = LdmGPUType.HYBRID ∨ config.gpu_type = LdmGPUType.OPTIMUS) := by
  unfold ldm_gpu_config_has_type
  cases config.gpu_type <;> rfl

/-- The first write of `print_gpu_config` is the label of the category. -/
theorem label_of_type_queries (config : LdmGPUConfig) :
    (if ldm_gpu_config_has_type config LdmGPUType.OPTIMUS then "NVIDIA Optimus\n"
      else if ldm_gpu_config_has_type config LdmGPUType.HYBRID then "Hybrid Graphics\n"
      else if ldm_gpu_config_has_type config LdmGPUType.CROSSFIRE then "AMD Crossfire\n"
      else if ldm_gpu_config_has_type config LdmGPUType.SLI then "NVIDIA SLI\n"
      else if ldm_gpu_config_has_type config LdmGPUType.COMPOSITE then "Composite GPU\n"
      else "Simple GPU configuration\n")
      = category_label config.gpu_type ++ "\n" := by
  unfold ldm_gpu_config_has_type
  cases config.gpu_type <;> decide

/-- The writes of `print_gpu_config`, in closed form. -/
theorem stdout_of_print_gpu_config {M : Type} (lib : LdmLib M) (manager : M)
    (config : LdmGPUConfig) :
    stdout_of (print_gpu_config lib manager config)
      = [ category_label config.gpu_type ++ "\n", "\n",
          " ╒ Primary GPU"
            ++ (if config.gpu_type = LdmGPUType.HYBRID ∨ config.gpu_type = LdmGPUType.OPTIMUS then " (iGPU)" else "") ++ "\n" ]
        ++ stdout_of (print_device config.primary)
        ++ (match config.secondary with
            | none => []
            | some s =>
              (" ╒ Primary GPU"
                ++ (if config.gpu_type = LdmGPUType.HYBRID ∨ config.gpu_type = LdmGPUType.OPTIMUS then " (dGPU)" else "") ++ "\n")
                :: stdout_of (print_device s))
        ++ stdout_of (print_drivers lib manager (ldm_gpu_config_get_detection_device config)) := by
  unfold print_gpu_config
  rw [label_of_type_queries]
  cases hs : config.secondary <;>
    simp [ldm_gpu_config_get_secondary_device, ldm_gpu_config_get_primary_device, hs,
      has_type_hybrid]

/-- Every write of `print_device` begins with a blank. -/
theorem print_device_starts_blank (device : LdmDevice) :
    ∀ s ∈ stdout_of (print_device device), starts_blank s := by
  intro s hs
  unfold print_device at hs
  cases hg : ldm_device_has_type device LdmDeviceType.GPU
  · simp [hg] at hs
    rcases hs with rfl | rfl | rfl | rfl <;>
    · left
      simp [String.data_append]
  · simp [hg] at hs
    rcases hs with rfl | rfl | rfl | rfl | rfl <;>
    · left
      simp [String.data_append]

/-- Every write of `print_drivers` begins with a blank or a newline. -/
theorem print_drivers_starts_blank {M : Type} (lib : LdmLib M) (manager : M)
    (device : LdmDevice) :
    ∀ s ∈ stdout_of (print_drivers lib manager device), starts_blank s := by
  intro s hs
  rw [print_drivers_eq] at hs
  split at hs
  · simp at hs
  · simp only [stdout_of_cons_call, stdout_of_cons_stdout, stdout_of_map_stdout,
      List.mem_cons, List.mem_map] at hs
    rcases hs with h | ⟨p, -, h⟩
    · subst h
      right
      simp [String.data_append]
    · subst h
      left
      simp [provider_line, String.data_append]

/-- No category label line begins with a blank or a newline. -/
theorem label_not_starts_blank (t : LdmGPUType) : ¬ starts_blank (category_label t ++ "\n") := by
  unfold starts_blank
  cases t <;> decide

/-! ## C6: the category label -/

/-- C6: the first thing `print_gpu_config` writes is the label of the
configuration's category, with the label the report is specified to show for
each of the six categories; no later write is a category label; and the six
labels are pairwise distinct, so the label determines the category. -/
theorem print_gpu_config_label {M : Type} (lib : LdmLib M) (manager : M)
    (config : LdmGPUConfig) :
    (print_gpu_config lib manager config).head?
        = some (Event.stdout (category_label config.gpu_type ++ "\n"))
      ∧ (∀ s ∈ (stdout_of (print_gpu_config lib manager config)).tail,
          ∀ t, s ≠ category_label t ++ "\n")
      ∧ (∀ a b, category_label a = category_label b → a = b)
      ∧ category_label LdmGPUType.OPTIMUS = "NVIDIA Optimus"
      ∧ category_label LdmGPUType.HYBRID = "Hybrid Graphics"
      ∧ category_label LdmGPUType.CROSSFIRE = "AMD Crossfire"
      ∧ category_label LdmGPUType.SLI = "NVIDIA SLI"
      ∧ category_label LdmGPUType.COMPOSITE = "Composite GPU"
      ∧ category_label LdmGPUType.SIMPLE = "Simple GPU configuration" := by
  refine ⟨?_, ?_, ?_, rfl, rfl, rfl, rfl, rfl, rfl⟩
  · unfold print_gpu_config
    rw [label_of_type_queries]
    simp
  · intro s hs t hst
    have hblank : starts_blank s := by
      rw [stdout_of_print_gpu_config] at hs
      simp only [List.cons_append, List.nil_append, List.tail_cons, List.mem_cons,
        List.mem_append] at hs
      rcases hs with h | h | h | h
      · subst h
        right
        rfl
      · subst h
        left
        simp [String.data_append]
      · rcases h with h | h
        · exact print_device_starts_blank _ s h
        · cases hsec : config.secondary with
          | none => simp [hsec] at h
          | some d =>
            simp only [hsec, List.mem_cons] at h
            rcases h with h | h
            · subst h
              left
              simp [String.data_append]
            · exact print_device_starts_blank _ s h
      · exact print_drivers_starts_blank _ _ _ s h
    rw [hst] at hblank
    exact label_not_starts_blank t hblank
  · intro a b
    cases a <;> cases b <;> decide

/-! ## C8: the secondary device's block -/

/-- C8: without a secondary device, as in a Simple configuration, the report
is the label, the blank line, one header and one device block for the primary,
and then the provider listing; with a secondary device one more header and the
secondary device's block stand between the primary's block and the provider
listing. -/
theorem print_gpu_config_secondary_block {M : Type} (lib : LdmLib M) (manager : M)
    (config : LdmGPUConfig) :
    (config.secondary = none →
        print_gpu_config lib manager config
          = [ Event.stdout (category_label config.gpu_type ++ "\n"),
              Event.stdout "\n",
              Event.stdout (" ╒ Primary GPU"
                ++ (if config.gpu_type = LdmGPUType.HYBRID ∨ config.gpu_type = LdmGPUType.OPTIMUS then " (iGPU)" else "") ++ "\n") ]
            ++ print_device config.primary
            ++ print_drivers lib manager (ldm_gpu_config_get_detection_device config))
    ∧ (∀ secondary, config.secondary = some secondary →
        ∃ header2 : String,
          print_gpu_config lib manager config
            = [ Event.stdout (category_label config.gpu_type ++ "\n"),
                Event.stdout "\n",
                Event.stdout (" ╒ Primary GPU"
                  ++ (if config.gpu_type = LdmGPUType.HYBRID ∨ config.gpu_type = LdmGPUType.OPTIMUS then " (iGPU)" else "") ++ "\n") ]
              ++ print_device config.primary
              ++ [Event.stdout header2]
              ++ print_device secondary
              ++ print_drivers lib manager (ldm_gpu_config_get_detection_device config)) := by
  constructor
  · intro hs
    unfold print_gpu_config
    rw [label_of_type_queries]
    simp [ldm_gpu_config_get_secondary_device, ldm_gpu_config_get_primary_device, hs,
      has_type_hybrid]
  · intro secondary hs
    refine ⟨" ╒ Primary GPU"
      ++ (if config.gpu_type = LdmGPUType.HYBRID ∨ config.gpu_type = LdmGPUType.OPTIMUS then " (dGPU)" else "") ++ "\n", ?_⟩
    unfold print_gpu_config
    rw [label_of_type_queries]
    simp [ldm_gpu_config_get_secondary_device, ldm_gpu_config_get_primary_device, hs,
      has_type_hybrid]

/-- Witness for C8: the report of a Simple configuration has one device
block. -/
theorem print_gpu_config_secondary_block_witness :
    print_gpu_config (sampleLib sampleSimple) [] sampleSimple
      = [ Event.stdout "Simple GPU configuration\n",
          Event.stdout "\n",
          Event.stdout " ╒ Primary GPU\n" ]
        ++ print_device sampleIntel
        ++ print_drivers (sampleLib sampleSimple) [] sampleIntel :=
  (print_gpu_config_secondary_block (sampleLib sampleSimple) [] sampleSimple).1 rfl

/-! ## C9 and C10: the headers of the two device blocks -/

/-- The header above the primary device's block. -/
theorem header_of_primary_block_eq {M : Type} (lib : LdmLib M) (manager : M)
    (config : LdmGPUConfig) :
    header_of_primary_block (stdout_of (print_gpu_config lib manager config))
      = some (" ╒ Primary GPU"
          ++ (if config.gpu_type = LdmGPUType.HYBRID ∨ config.gpu_type = LdmGPUType.OPTIMUS then " (iGPU)" else "") ++ "\n") := by
  rw [stdout_of_print_gpu_config]
  simp [header_of_primary_block]

/-- The writes of `print_device` are all to `stdout`. -/
theorem stdout_of_print_device_length (device : LdmDevice) :
    (stdout_of (print_device device)).length = (print_device device).length := by
  unfold print_device
  cases ldm_device_has_type device LdmDeviceType.GPU <;> simp

/-- The header above the secondary device's block. -/
theorem header_of_secondary_block_eq {M : Type} (lib : LdmLib M) (manager : M)
    (config : LdmGPUConfig) (secondary : LdmDevice) (hs : config.secondary = some secondary) :
    header_of_secondary_block config.primary (stdout_of (print_gpu_config lib manager config))
      = some (" ╒ Primary GPU"
          ++ (if config.gpu_type = LdmGPUType.HYBRID ∨ config.gpu_type = LdmGPUType.OPTIMUS then " (dGPU)" else "") ++ "\n") := by
  rw [stdout_of_print_gpu_config, hs]
  unfold header_of_secondary_block
  rw [← stdout_of_print_device_length]
  generalize stdout_of (print_device config.primary) = block
  generalize stdout_of (print_device secondary) = block2
  generalize stdout_of (print_drivers lib manager (ldm_gpu_config_get_detection_device config))
    = listing
  have hlen : 3 + block.length
      = ([ category_label config.gpu_type ++ "\n", "\n",
          " ╒ Primary GPU"
            ++ (if config.gpu_type = LdmGPUType.HYBRID ∨ config.gpu_type = LdmGPUType.OPTIMUS then " (iGPU)" else "") ++ "\n" ]
        ++ block).length := by
    simp only [List.length_append, List.length_cons, List.length_nil]
  rw [hlen, List.append_assoc, List.get?_eq_getElem?,
    List.getElem?_append_right (Nat.le_refl _)]
  simp

/-- C9, the report of a Crossfire configuration with a secondary device: the
header above the secondary device's block is the same line as the header above
the primary device's block, `" ╒ Primary GPU"`. -/
theorem crossfire_block_headers_coincide :
    sampleCrossfire.secondary ≠ none
      ∧ header_of_primary_block
          (stdout_of (print_gpu_config (sampleLib sampleCrossfire) [] sampleCrossfire))
        = some " ╒ Primary GPU\n"
      ∧ header_of_secondary_block sampleCrossfire.primary
          (stdout_of (print_gpu_config (sampleLib sampleCrossfire) [] sampleCrossfire))
        = some " ╒ Primary GPU\n"
      ∧ stdout_of (print_gpu_config (sampleLib sampleCrossfire) [] sampleCrossfire)
        = [ "AMD Crossfire\n", "\n",
            " ╒ Primary GPU\n",
            " ╞ Device Name   : Radeon A\n",
            " ╞ Manufacturer  : AMD\n",
            " ╞ Product ID    : 0x67df\n",
            " ╞ Vendor ID     : 0x1002\n",
            " ╘ Boot VGA      : yes\n",
            " ╒ Primary GPU\n",
            " ╞ Device Name   : Radeon B\n",
            " ╞ Manufacturer  : AMD\n",
            " ╞ Product ID    : 0x67df\n",
            " ╞ Vendor ID     : 0x1002\n",
            " ╘ Boot VGA      : no\n" ] := by
  decide

/-- C10: for a configuration whose category is Hybrid or Optimus, the
integrated plus discrete pairings, the header of the primary block carries
`" (iGPU)"` and the header of the secondary block, which is written when there
is a secondary device, carries `" (dGPU)"`; for the categories Simple,
Crossfire, SLI and Composite no header carries either suffix. -/
theorem print_gpu_config_suffixes {M : Type} (lib : LdmLib M) (manager : M)
    (config : LdmGPUConfig) :
    (config.gpu_type = LdmGPUType.HYBRID ∨ config.gpu_type = LdmGPUType.OPTIMUS →
        marked " (iGPU)" (header_of_primary_block
            (stdout_of (print_gpu_config lib manager config))) = true
        ∧ ∀ secondary, config.secondary = some secondary →
            marked " (dGPU)" (header_of_secondary_block config.primary
              (stdout_of (print_gpu_config lib manager config))) = true)
    ∧ (config.gpu_type = LdmGPUType.SIMPLE ∨ config.gpu_type = LdmGPUType.CROSSFIRE
          ∨ config.gpu_type = LdmGPUType.SLI ∨ config.gpu_type = LdmGPUType.COMPOSITE →
        marked " (iGPU)" (header_of_primary_block
            (stdout_of (print_gpu_config lib manager config))) = false
        ∧ marked " (dGPU)" (header_of_primary_block
            (stdout_of (print_gpu_config lib manager config))) = false
        ∧ ∀ secondary, config.secondary = some secondary →
            marked " (iGPU)" (header_of_secondary_block config.primary
              (stdout_of (print_gpu_config lib manager config))) = false
            ∧ marked " (dGPU)" (header_of_secondary_block config.primary
              (stdout_of (print_gpu_config lib manager config))) = false) := by
  constructor
  · intro ht
    refine ⟨?_, ?_⟩
    · rw [header_of_primary_block_eq, if_pos ht]
      decide
    · intro secondary hs
      rw [header_of_secondary_block_eq lib manager config secondary hs, if_pos ht]
      decide
  · intro ht
    have hn : ¬ (config.gpu_type = LdmGPUType.HYBRID ∨ config.gpu_type = LdmGPUType.OPTIMUS) := by
      rcases ht with h | h | h | h <;> rw [h] <;> decide
    refine ⟨?_, ?_, ?_⟩
    · rw [header_of_primary_block_eq, if_neg hn]
      decide
    · rw [header_of_primary_block_eq, if_neg hn]
      decide
    · intro secondary hs
      rw [header_of_secondary_block_eq lib manager config secondary hs, if_neg hn]
      constructor <;> decide

/-- Witness for C10: the report of an Optimus configuration. -/
theorem print_gpu_config_suffixes_witness :
    marked " (iGPU)" (header_of_primary_block
        (stdout_of (print_gpu_config (sampleLib sampleOptimus) [] sampleOptimus))) = true
      ∧ marked " (dGPU)" (header_of_secondary_block sampleOptimus.primary
          (stdout_of (print_gpu_config (sampleLib sampleOptimus) [] sampleOptimus))) = true :=
  ⟨((print_gpu_config_suffixes (sampleLib sampleOptimus) [] sampleOptimus).1
      (Or.inr rfl)).1,
    ((print_gpu_config_suffixes (sampleLib sampleOptimus) [] sampleOptimus).1
      (Or.inr rfl)).2 sampleNvidia rfl⟩

end Ldm
